import Mathlib

/-!
Shallow embedding of the qgis-docker repository, checked against the
specification's claims.

Sources embedded:
* `workspace/tests/test_all.py` — the `TestResults` aggregator
  (`add_result`, `print_summary`), the check routines
  (`test_qgis_installation`, `test_python_libraries`, `test_data_io`),
  and `generate_test_report`.
* `scripts/validate_environment.py` — `quick_check`, `full_check` and the
  `__main__` exit-code selection.
* the `startup.py` script emitted by `setup.py`'s `create_scripts`.
* `setup.py` — `main`'s interactive confirmation gate.

Exceptions are modelled explicitly: a Python expression that may raise is
represented by a `Res` value (result or exception message), and code whose
exceptions can escape returns an `Option String` exception channel.
-/

namespace QD

/-- Outcome of a Python statement or expression that may raise: either a
value, or an exception carrying its message (`str(e)`). -/
inductive Res (α : Type) where
  | ok : α → Res α
  | exn : String → Res α
deriving DecidableEq, Repr

/-- A failure record: the Python dict `{"test": name, "message": message}`
appended to `TestResults.failures` (test_all.py line 29). -/
structure Failure where
  test : String
  message : String
deriving DecidableEq, Repr

/-- State of the `TestResults` aggregator (test_all.py lines 14–30).
The `start_time` field only feeds the console duration line of
`print_summary` and carries no check data, so it is not modelled. -/
structure TestResults where
  tests_run : Nat
  tests_passed : Nat
  tests_failed : Nat
  failures : List Failure
deriving DecidableEq, Repr

/-- Initial aggregator state (`TestResults.__init__`). -/
def TestResults.init : TestResults := ⟨0, 0, 0, []⟩

/-- `TestResults.add_result(test_name, passed, message="")`
(test_all.py lines 22–30): increments `tests_run`; on `passed` increments
`tests_passed`; otherwise increments `tests_failed` and appends a
`{"test": …, "message": …}` record to `failures`. -/
def add_result (r : TestResults) (test_name : String) (passed : Bool)
    (message : String) : TestResults :=
  let r := { r with tests_run := r.tests_run + 1 }
  if passed then
    { r with tests_passed := r.tests_passed + 1 }
  else
    { r with tests_failed := r.tests_failed + 1,
             failures := r.failures ++ [⟨test_name, message⟩] }

/-- One `add_result` invocation: its three arguments. -/
structure Call where
  name : String
  passed : Bool
  message : String
deriving DecidableEq, Repr

/-- Fold a sequence of `add_result` calls over an aggregator state. -/
def runFrom (r : TestResults) (cs : List Call) : TestResults :=
  cs.foldl (fun s c => add_result s c.name c.passed c.message) r

/-- Aggregator state after a sequence of `add_result` calls, starting from
the freshly constructed aggregator. -/
def runCalls (cs : List Call) : TestResults :=
  runFrom TestResults.init cs

/-- The Python expression `tests_passed / tests_run * 100` in
`print_summary` (test_all.py line 40): raises `ZeroDivisionError` when
`tests_run = 0`, modelled as `none`. -/
def success_rate (passed run : Nat) : Option ℚ :=
  if run = 0 then none else some ((passed : ℚ) / (run : ℚ) * 100)

/-- `TestResults.print_summary` (test_all.py lines 32–48): prints counters
and a success-rate line (whose division raises on an empty run, aborting
the method), then returns `self.tests_failed == 0`. -/
def print_summary (r : TestResults) : Option Bool :=
  match success_rate r.tests_passed r.tests_run with
  | none => none
  | some _ => some (r.tests_failed == 0)

theorem runFrom_cons (r : TestResults) (c : Call) (cs : List Call) :
    runFrom r (c :: cs) = runFrom (add_result r c.name c.passed c.message) cs := rfl

theorem add_result_tests_run (r : TestResults) (n : String) (p : Bool) (m : String) :
    (add_result r n p m).tests_run = r.tests_run + 1 := by
  cases p <;> rfl

theorem add_result_passed_failed (r : TestResults) (n : String) (p : Bool) (m : String) :
    (add_result r n p m).tests_passed + (add_result r n p m).tests_failed
      = r.tests_passed + r.tests_failed + 1 := by
  cases p <;> simp [add_result] <;> omega

theorem add_result_tests_failed (r : TestResults) (n : String) (p : Bool) (m : String) :
    (add_result r n p m).tests_failed = r.tests_failed + (if p then 0 else 1) := by
  cases p <;> simp [add_result]

theorem add_result_failures (r : TestResults) (n : String) (p : Bool) (m : String) :
    (add_result r n p m).failures = r.failures ++ (if p then [] else [⟨n, m⟩]) := by
  cases p <;> simp [add_result]

theorem runFrom_tests_run (cs : List Call) :
    ∀ r : TestResults, (runFrom r cs).tests_run = r.tests_run + cs.length := by
  induction cs with
  | nil => intro r; rfl
  | cons c cs ih =>
    intro r
    rw [runFrom_cons, ih, add_result_tests_run]
    simp only [List.length_cons]
    omega

theorem runFrom_passed_failed (cs : List Call) :
    ∀ r : TestResults, (runFrom r cs).tests_passed + (runFrom r cs).tests_failed
      = r.tests_passed + r.tests_failed + cs.length := by
  induction cs with
  | nil => intro r; simp [runFrom]
  | cons c cs ih =>
    intro r
    rw [runFrom_cons, ih, add_result_passed_failed]
    simp only [List.length_cons]
    omega

theorem runFrom_tests_failed (cs : List Call) :
    ∀ r : TestResults, (runFrom r cs).tests_failed
      = r.tests_failed + (cs.filter fun c => !c.passed).length := by
  induction cs with
  | nil => intro r; simp [runFrom]
  | cons c cs ih =>
    intro r
    rw [runFrom_cons, ih, add_result_tests_failed]
    cases hc : c.passed with
    | false => simp [List.filter_cons, hc]; omega
    | true => simp [List.filter_cons, hc]

theorem runFrom_failures (cs : List Call) :
    ∀ r : TestResults, (runFrom r cs).failures
      = r.failures ++ ((cs.filter fun c => !c.passed).map fun c => Failure.mk c.name c.message) := by
  induction cs with
  | nil => intro r; simp [runFrom]
  | cons c cs ih =>
    intro r
    rw [runFrom_cons, ih, add_result_failures]
    cases hc : c.passed <;> simp [List.filter_cons, hc]

/-- A call sequence with the names and messages of all passing calls
blanked out; used to express that passing calls' data is not retained. -/
def scrub (c : Call) : Call := if c.passed then ⟨"", true, ""⟩ else c

theorem add_result_scrub (s : TestResults) (c : Call) :
    add_result s (scrub c).name (scrub c).passed (scrub c).message
      = add_result s c.name c.passed c.message := by
  cases hc : c.passed <;> simp [scrub, hc, add_result]

theorem runFrom_scrub (cs : List Call) :
    ∀ r : TestResults, runFrom r (cs.map scrub) = runFrom r cs := by
  induction cs with
  | nil => intro r; rfl
  | cons c cs ih =>
    intro r
    show runFrom (add_result r (scrub c).name (scrub c).passed (scrub c).message) (cs.map scrub) = _
    rw [add_result_scrub, ih, runFrom_cons]

/-- Claim C1 (code-bug evaluation): on the empty run — zero `add_result`
calls — the summary computation raises `ZeroDivisionError` (modelled as
`none`) instead of completing with a vacuously true success flag. -/
theorem print_summary_empty_run_divzero : print_summary (runCalls []) = none := rfl

/-- Claim C6: for every sequence of `add_result` calls the aggregator
satisfies `tests_run = tests_passed + tests_failed`, and `tests_run`
equals the number of calls made. -/
theorem aggregator_counts_invariant (cs : List Call) :
    (runCalls cs).tests_run = (runCalls cs).tests_passed + (runCalls cs).tests_failed ∧
    (runCalls cs).tests_run = cs.length := by
  have h1 := runFrom_tests_run cs TestResults.init
  have h2 := runFrom_passed_failed cs TestResults.init
  simp [TestResults.init] at h1 h2
  unfold runCalls
  simp only [TestResults.init]
  omega

/-- Claim C10: after any call sequence the `failures` list is exactly the
`(name, message)` pairs of the failing calls in call order, its length is
the failed counter, and the names/messages of passing calls are retained
nowhere: blanking them out (`scrub`) leaves the whole aggregator state
unchanged. -/
theorem failures_exactly_failed_calls (cs : List Call) :
    (runCalls cs).failures
      = ((cs.filter fun c => !c.passed).map fun c => Failure.mk c.name c.message) ∧
    (runCalls cs).failures.length = (runCalls cs).tests_failed ∧
    runCalls (cs.map scrub) = runCalls cs := by
  refine ⟨?_, ?_, runFrom_scrub cs TestResults.init⟩
  · have := runFrom_failures cs TestResults.init
    simpa [runCalls, TestResults.init] using this
  · have hf := runFrom_failures cs TestResults.init
    have hd := runFrom_tests_failed cs TestResults.init
    simp [TestResults.init] at hf hd
    unfold runCalls
    simp only [TestResults.init]
    rw [hf, hd]
    simp

/-- Claim C3 (counterexample): a passing call appends no record to any
sequence held by the aggregator — two single-call sequences with different
names and messages leave byte-identical aggregator states, and the only
ordered sequence in the state (`failures`) stays empty, so the state cannot
contain one entry per call. -/
theorem passing_call_retains_no_record :
    runCalls [⟨"A", true, "x"⟩] = runCalls [⟨"B", true, "y"⟩] ∧
    (runCalls [⟨"A", true, "x"⟩]).failures = [] := ⟨rfl, rfl⟩

/-- Claim C3 (amended): a call with `passed = true` only increments the run
and passed counters, retaining neither name nor message; a call with
`passed = false` additionally appends exactly one `{test, message}` record
to the `failures` sequence (duplicates allowed, kept in call order). -/
theorem add_result_append_behavior (r : TestResults) (n m : String) :
    add_result r n true m
      = { r with tests_run := r.tests_run + 1, tests_passed := r.tests_passed + 1 } ∧
    add_result r n false m
      = { r with tests_run := r.tests_run + 1, tests_failed := r.tests_failed + 1,
                 failures := r.failures ++ [⟨n, m⟩] } := ⟨rfl, rfl⟩

/-- Environment oracle for `test_qgis_installation` (test_all.py lines
50–76): the outcomes of the four statement groups inside its `try` block
that touch the external application. `version` covers
`Qgis.version()` / `Qgis.versionInt()`, `initApp` covers
`setPrefixPath` / construction / `initQgis`, `exitApp` covers
`exitQgis()`. -/
structure QgisEnv where
  importCore : Res Unit
  version : Res String
  initApp : Res Unit
  exitApp : Res Unit

/-- `test_qgis_installation(results)` (test_all.py lines 50–76): the whole
body is one `try`; any exception is caught by `except Exception` and
recorded as a single failing "QGIS Installation" result. (The function's
`True`/`False` return value is ignored by `main` and not modelled.) -/
def test_qgis_installation (env : QgisEnv) (r : TestResults) : TestResults :=
  match env.importCore with
  | .exn e => add_result r "QGIS Installation" false e
  | .ok _ =>
    match env.version with
    | .exn e => add_result r "QGIS Installation" false e
    | .ok v =>
      let r := if v.startsWith "3.34" then
          add_result r "QGIS Version 3.34 LTR" true ("Version: " ++ v)
        else
          add_result r "QGIS Version 3.34 LTR" false ("Wrong version: " ++ v)
      match env.initApp with
      | .exn e => add_result r "QGIS Installation" false e
      | .ok _ =>
        let r := add_result r "QGIS Initialization" true ""
        match env.exitApp with
        | .exn e => add_result r "QGIS Installation" false e
        | .ok _ => r

/-- Outcome of `__import__(lib)` in `test_python_libraries`: success with a
`__version__` string (`"unknown"` when the attribute is absent), an
`ImportError`, or any other exception — which the routine's
`except ImportError` clause does not catch. -/
inductive ImpRes where
  | ok : String → ImpRes
  | importError : ImpRes
  | exnOther : String → ImpRes
deriving DecidableEq, Repr

/-- The `required_libs` dict of `test_python_libraries` (test_all.py lines
82–91), in insertion order. -/
def required_libs : List (String × String) :=
  [("numpy", "Scientific computing"), ("pandas", "Data analysis"),
   ("gdal", "Geospatial data"), ("matplotlib", "Plotting"),
   ("scipy", "Scientific tools"), ("rasterio", "Raster I/O"),
   ("shapely", "Geometric operations"), ("fiona", "Vector I/O")]

/-- Loop body of `test_python_libraries` (test_all.py lines 93–99): each
iteration tries `__import__(lib)` under `except ImportError` only, so a
non-ImportError exception escapes the loop (second component `some msg`),
leaving the results recorded so far in place. -/
def libsLoop (env : String → ImpRes) :
    List (String × String) → TestResults → TestResults × Option String
  | [], r => (r, none)
  | (lib, _) :: rest, r =>
    match env lib with
    | .ok v => libsLoop env rest (add_result r ("Library: " ++ lib) true ("v" ++ v))
    | .importError => libsLoop env rest (add_result r ("Library: " ++ lib) false "Not installed")
    | .exnOther e => (r, some e)

/-- `test_python_libraries(results)` (test_all.py lines 78–99). The second
component is an exception escaping the routine uncaught. -/
def test_python_libraries (env : String → ImpRes) (r : TestResults) :
    TestResults × Option String :=
  libsLoop env required_libs r

/-- Sequencing of a statement group that records no result: if it raises,
the exception propagates (to the routine's single handler); otherwise
execution continues. -/
def unitStep (o : Res Unit) (r : TestResults)
    (k : TestResults → TestResults × Option String) : TestResults × Option String :=
  match o with
  | .exn e => (r, some e)
  | .ok _ => k r

/-- The message of the `NameError` raised at test_all.py line 193,
`QgsApplication.setPrefixPath("/usr", True)`: the module imports only
sys/os/json/traceback/datetime (lines 8–12), and the
`from qgis.core import …` statements of the other routines bind names in
their own local scopes, so `QgsApplication` is undefined in
`test_data_io`'s scope. -/
def qgisApplicationNameError : String := "name 'QgsApplication' is not defined"

/-- Environment oracle for `test_data_io` (test_all.py lines 186–237):
only its first statement, `from qgis.core import Qgis` (line 191),
depends on the environment. The next statement, line 193, raises
`NameError` unconditionally (see `qgisApplicationNameError`), so the probe
statements of lines 198–234 — memory layer, add features, the GeoJSON
write/read, the `formats` loop — are unreachable and have no oracle. -/
structure DataIOEnv where
  importQgis : Res Unit

/-- The `try` body of `test_data_io` (test_all.py lines 190–234): first
the import of line 191, then the unconditional `NameError` of line 193.
Control cannot reach any later statement of the body. -/
def dataIOBody (env : DataIOEnv) (r : TestResults) : TestResults × Option String :=
  unitStep env.importQgis r fun r =>
  (r, some qgisApplicationNameError)

/-- `test_data_io(results)` (test_all.py lines 186–237): the whole body is
one `try`; `except Exception` converts any escaping exception into a single
failing "Data I/O" result. -/
def test_data_io_routine (env : DataIOEnv) (r : TestResults) : TestResults :=
  match dataIOBody env r with
  | (r, none) => r
  | (r, some e) => add_result r "Data I/O" false e

/-- Claim C4 (counterexample): on a run where the qgis import succeeds,
the data-I/O routine records exactly one result — the routine-level
"Data I/O" failure carrying the unconditional `NameError` of line 193 —
so the write/read probes never execute, let alone survive an earlier
probe's failure: no probe of this routine runs at all. -/
theorem data_io_no_probe_ever_executes :
    test_data_io_routine ⟨Res.ok ()⟩ TestResults.init
      = ⟨1, 0, 1, [⟨"Data I/O", qgisApplicationNameError⟩]⟩ := rfl

/-- Claim C4 (amended): probes are individually wrapped only in the
libraries routine and the enmapbox dependency checks — there one probe's
failure indeed does not prevent its siblings, e.g. a missing numpy still
lets the other seven library probes record — but the data-I/O routine's
body is a single `try` whose first statement after the import raises
`NameError` unconditionally (`QgsApplication` is undefined in its scope),
so none of its probes, in particular none of the write/read probes, ever
executes: on every run the routine records exactly one failing "Data I/O"
result, carrying the `NameError` message, or the import error's message
when the qgis import itself fails. -/
theorem data_io_routine_single_failure (e : String) (r : TestResults) :
    test_data_io_routine ⟨Res.ok ()⟩ r
      = add_result r "Data I/O" false qgisApplicationNameError ∧
    test_data_io_routine ⟨Res.exn e⟩ r = add_result r "Data I/O" false e ∧
    (test_python_libraries
        (fun lib => if lib == "numpy" then ImpRes.importError else ImpRes.ok "1.0") r).2
      = none ∧
    (test_python_libraries
        (fun lib => if lib == "numpy" then ImpRes.importError else ImpRes.ok "1.0") r).1.tests_run
      = r.tests_run + 8 :=
  ⟨rfl, rfl, rfl, rfl⟩

/-- Claim C5 (counterexample): an unexpected (non-ImportError) exception
raised by the first import inside `test_python_libraries` is not caught at
the routine's boundary: the routine yields zero Check Results and the
exception propagates out of it (and `main` installs no handler around the
routine calls, so the run aborts). -/
theorem lib_routine_unhandled_propagation :
    test_python_libraries (fun _ => ImpRes.exnOther "boom") TestResults.init
      = (TestResults.init, some "boom") := rfl

/-- Claim C5 (amended): routines whose body is wrapped in
`except Exception` (such as the QGIS-installation routine) do convert an
escaping exception into exactly one failing Check Result; and an
`ImportError` inside the libraries routine is converted per-probe with
nothing escaping; but the libraries routine catches only `ImportError`,
so any other exception raised by an import escapes it uncaught, aborting
the run. -/
theorem routine_exception_boundary_mixed (e : String) (r : TestResults)
    (v : Res String) (i x : Res Unit) :
    test_python_libraries (fun _ => ImpRes.exnOther e) r = (r, some e) ∧
    (test_python_libraries (fun _ => ImpRes.importError) r).2 = none ∧
    test_qgis_installation ⟨Res.exn e, v, i, x⟩ r
      = add_result r "QGIS Installation" false e :=
  ⟨rfl, rfl, rfl⟩

/-- A console line of `validate_environment.py`: an `[OK] …` or
`[ERROR] …` progress message. -/
inductive Line where
  | ok : String → Line
  | error : String → Line
deriving DecidableEq, Repr

/-- True when a line list contains an `[ERROR]` line, i.e. some check
detected a failure. -/
def hasError (ls : List Line) : Bool :=
  ls.any fun l => match l with
    | .error _ => true
    | .ok _ => false

/-- Environment oracle for `validate_environment.py`: whether a module can
be imported (`false` means the import raises `ImportError`; these scripts
catch no other exception kind) and whether a path exists. -/
structure PyEnv where
  importOk : String → Bool
  dirExists : String → Bool

/-- `quick_check()` (validate_environment.py lines 5–14): imports
`qgis.core`, `numpy`, `pandas` inside one `try`; returns `True` and prints
an `[OK]` line when all three succeed, otherwise catches the `ImportError`
and returns `False` after an `[ERROR]` line. -/
def quick_check (env : PyEnv) : List Line × Bool :=
  if env.importOk "qgis.core" && env.importOk "numpy" && env.importOk "pandas" then
    ([Line.ok "Quick validation passed"], true)
  else
    ([Line.error "Quick validation failed"], false)

/-- The `dirs` list of `full_check` (validate_environment.py line 24). -/
def validate_dirs : List String := ["/workspace", "/logs", "/config"]

/-- The `packages` list of `full_check` (validate_environment.py line 32). -/
def validate_packages : List String := ["numpy", "scipy", "pandas", "rasterio", "geopandas"]

/-- `full_check()` (validate_environment.py lines 16–40): runs
`quick_check()` discarding its result, prints per-directory and
per-package `[OK]`/`[ERROR]` lines, and — as written on line 40 —
returns `True` unconditionally. -/
def full_check (env : PyEnv) : List Line × Bool :=
  let q := quick_check env
  let dl := validate_dirs.map fun d =>
    if env.dirExists d then Line.ok ("Directory exists: " ++ d)
    else Line.error ("Directory missing: " ++ d)
  let pl := validate_packages.map fun p =>
    if env.importOk p then Line.ok ("Package " ++ p ++ " installed")
    else Line.error ("Package " ++ p ++ " not found")
  (q.1 ++ dl ++ pl, true)

/-- The `__main__` block of `validate_environment.py` (lines 42–50):
with `--quick`, `sys.exit(0 if quick_check() else 1)`; otherwise
`sys.exit(0 if full_check() else 1)`. -/
def validate_main (env : PyEnv) (quick : Bool) : Nat :=
  if quick then (if (quick_check env).2 then 0 else 1)
  else (if (full_check env).2 then 0 else 1)

/-- An environment in which every import succeeds except `numpy`, and all
directories exist. -/
def envMissingNumpy : PyEnv :=
  ⟨fun s => !(s == "numpy"), fun _ => true⟩

/-- Claim C2 (code-bug evaluation): with `numpy` missing, full mode prints
an `[ERROR]` detection yet exits 0, because `full_check` returns `True`
unconditionally — while quick mode correctly exits 1 on the same
environment. -/
theorem full_mode_ignores_detected_failures :
    validate_main envMissingNumpy false = 0 ∧
    hasError (full_check envMissingNumpy).1 = true ∧
    validate_main envMissingNumpy true = 1 := ⟨rfl, rfl, rfl⟩

/-- Environment oracle for the `startup.py` emitted by `setup.py`'s
`create_scripts` (setup.py lines 229–263): the outcome of
`from qgis.core import Qgis` (with the version string), and the result of
`subprocess.run(cmd)` for a given command — its exit code, or an exception
(e.g. `FileNotFoundError`) from the invocation itself. -/
structure StartupEnv where
  qgisVersion : Res String
  subproc : List String → Res Nat

/-- The generated `startup.py`, as a function from the full `sys.argv` to
the process exit code: exits 1 when the QGIS import fails; with trailing
arguments runs them via a blocking `subprocess.run` whose return value is
discarded, then falls off the end of the script (exit 0), or exits 1 when
the subprocess invocation itself raises; with no trailing arguments prints
"Environment ready!" and falls off the end (exit 0). -/
def startup_main (env : StartupEnv) (argv : List String) : Nat :=
  match env.qgisVersion with
  | .exn _ => 1
  | .ok _ =>
    if argv.length > 1 then
      match env.subproc (argv.drop 1) with
      | .exn _ => 1
      | .ok _ => 0
    else 0

/-- A healthy environment whose subprocess invocations all exit with
code 7. -/
def startupEnvSeven : StartupEnv :=
  ⟨Res.ok "3.34.4", fun _ => Res.ok 7⟩

/-- Claim C7 (counterexample): the subprocess exits with code 7, but the
startup script's own exit code is 0 — `subprocess.run(cmd)`'s result is
never inspected, so the subprocess exit code is not relayed. -/
theorem startup_exit_code_not_relayed :
    startup_main startupEnvSeven ["startup.py", "qgis_process"] = 0 ∧
    startupEnvSeven.subproc ["qgis_process"] = Res.ok 7 := ⟨rfl, rfl⟩

/-- Claim C7 (amended): with no trailing arguments the script prints a
ready message and exits 0; with trailing arguments it runs them as a
blocking subprocess but ignores that subprocess's exit code, also exiting
0; it exits 1 exactly when the initial QGIS import fails or the subprocess
invocation itself raises. -/
theorem startup_exit_codes (v e : String) (code : Nat) (argv : List String)
    (a b : String) (rest : List String) (sp : List String → Res Nat) :
    startup_main ⟨Res.ok v, fun _ => Res.ok code⟩ argv = 0 ∧
    startup_main ⟨Res.ok v, fun _ => Res.exn e⟩ (a :: b :: rest) = 1 ∧
    startup_main ⟨Res.exn e, sp⟩ argv = 1 := by
  refine ⟨?_, ?_, rfl⟩
  · simp only [startup_main]
    split <;> rfl
  · have hlen : (a :: b :: rest).length > 1 := by
      simp only [List.length_cons]
      omega
    simp only [startup_main]
    rw [if_pos hlen]

/-- Paths created by `setup.py main` once past the confirmation gate: the
`create_directory_structure` directories and `.gitkeep` files, and the
files written by `create_dockerfile`, `create_docker_compose`,
`create_requirements`, `create_scripts`, `create_env_file`,
`create_gitignore`, `create_readme` (setup.py lines 22–463). -/
def setup_created_paths : List String :=
  ["docker", "scripts", "config", "workspace/data", "workspace/projects",
   "workspace/plugins", "logs", "tests", ".github/workflows",
   "workspace/data/.gitkeep", "workspace/projects/.gitkeep",
   "workspace/plugins/.gitkeep", "logs/.gitkeep",
   "docker/Dockerfile", "docker-compose.yml", "docker/requirements.txt",
   "scripts/install_enmap.sh", "scripts/startup.py",
   "scripts/validate_environment.py", "tests/test_environment.py",
   ".env", ".gitignore", "README.md"]

/-- Python's `str.lower()` over the ASCII responses at issue, as a
character-wise map. -/
def pyLower (s : String) : String := ⟨s.data.map Char.toLower⟩

/-- `setup.py main`'s confirmation gate (setup.py lines 508–540), as a
function of the directory listing (`current_dir.glob("*")` names), the
script's own filename (`Path(__file__).name`, filtered out of the
listing), and the operator's response. Result: (whether the operator was
prompted, the paths created, the exit code). A response other than `y`
(lowercased) returns before any write, and `main` returning normally gives
exit code 0. Later steps (docker check, git init, the optional image
build) create no further paths and are not modelled. -/
def setup_main (files : List String) (scriptName response : String) :
    Bool × List String × Nat :=
  let existing := files.filter fun f => f != scriptName
  if existing.length > 0 then
    if pyLower response = "y" then (true, setup_created_paths, 0)
    else (true, [], 0)
  else (false, setup_created_paths, 0)

/-- Claim C8 (counterexample): a target directory that is non-empty — it
contains one entry, named like the setup script itself — is bootstrapped
with no prompt at all (the response is never read), because `main` filters
the script's own filename out of the listing before testing emptiness. -/
theorem nonempty_dir_script_only_no_prompt :
    (["setup.py"] : List String) ≠ [] ∧
    setup_main ["setup.py"] "setup.py" "n" = (false, setup_created_paths, 0) :=
  ⟨by decide, rfl⟩

/-- Claim C8 (amended): when the target directory contains any entry other
than the setup script's own filename, the operator is prompted before any
write, and a declining response returns cleanly with exit code 0 and
nothing created; when it contains no such entry, all declared directories
and files are created without prompting. -/
theorem setup_gate_behavior (files : List String) (sn resp : String) :
    ((files.filter fun f => f != sn) ≠ [] →
      (setup_main files sn resp).1 = true ∧
      (pyLower resp ≠ "y" → setup_main files sn resp = (true, [], 0))) ∧
    ((files.filter fun f => f != sn) = [] →
      setup_main files sn resp = (false, setup_created_paths, 0)) := by
  constructor
  · intro h
    have hl : 0 < (files.filter fun f => f != sn).length := List.length_pos.mpr h
    constructor
    · simp only [setup_main]
      rw [if_pos hl]
      split <;> rfl
    · intro hy
      simp only [setup_main]
      rw [if_pos hl, if_neg hy]
  · intro h
    simp [setup_main, h]

/-- Claim C8 (witness). -/
theorem setup_gate_behavior_witness :
    setup_main ["README.md"] "setup.py" "n" = (true, [], 0) ∧
    setup_main ["setup.py"] "setup.py" "n" = (false, setup_created_paths, 0) :=
  ⟨((setup_gate_behavior ["README.md"] "setup.py" "n").1 (by decide)).2 (by decide),
   (setup_gate_behavior ["setup.py"] "setup.py" "n").2 (by decide)⟩

/-- Round `num / den` to the nearest integer, ties to even — the rounding
`%.1f` formatting applies. (Python formats the IEEE double
`passed / run * 100`; the binary-representation rounding of that double is
abstracted to exact rational rounding here, which does not affect the
determinism properties proved below.) -/
def roundHalfEven (num den : Nat) : Nat :=
  let q := num / den
  let r2 := 2 * (num % den)
  if r2 < den then q
  else if r2 > den then q + 1
  else if q % 2 = 0 then q else q + 1

/-- The `f"{(passed/run*100):.1f}%"` expression of `generate_test_report`
(test_all.py line 303): raises `ZeroDivisionError` when `run = 0`,
otherwise the percentage with one decimal digit and a percent sign. -/
def fmtPct1 (passed run : Nat) : Option String :=
  if run = 0 then none
  else
    let t := roundHalfEven (passed * 1000) run
    some (toString (t / 10) ++ "." ++ toString (t % 10) ++ "%")

/-- JSON string escaping as `json.dump` applies to the report's fields
(quote, backslash and newline; other control and non-ASCII escapes do not
occur in the messages this harness produces and are not modelled). -/
def jsonEscape (s : String) : String :=
  s.foldl
    (fun acc c =>
      if c = '"' then acc ++ "\\\""
      else if c = '\\' then acc ++ "\\\\"
      else if c = '\n' then acc ++ "\\n"
      else acc.push c)
    ""

/-- One element of the report's `failures` array, as `json.dump` with
`indent=2` renders the dict `{"test": …, "message": …}` nested two levels
deep. -/
def failureJson (f : Failure) : String :=
  "    \x7b\n      \"test\": \"" ++ jsonEscape f.test ++
    "\",\n      \"message\": \"" ++ jsonEscape f.message ++ "\"\n    \x7d"

/-- The report's `failures` array as `json.dump` with `indent=2` renders
it. -/
def failuresJson (fs : List Failure) : String :=
  match fs with
  | [] => "[]"
  | _ => "[\n" ++ String.intercalate ",\n" (fs.map failureJson) ++ "\n  ]"

/-- The JSON report written to `/workspace/test_report.json` by
`generate_test_report` (test_all.py lines 295–309): `json.dump` with
`indent=2` of the report dict, whose keys appear in insertion order. The
`test_date` argument stands for `datetime.now().isoformat()`. `none` when
the success-rate division raises (zero tests run), in which case neither
file is written. -/
def json_report (r : TestResults) (test_date : String) : Option String :=
  match fmtPct1 r.tests_passed r.tests_run with
  | none => none
  | some rate => some
      ("\x7b\n  \"test_date\": \"" ++ jsonEscape test_date ++ "\",\n" ++
       "  \"environment\": \"Docker QGIS 3.34 LTR with EnMAP-Box\",\n" ++
       "  \"total_tests\": " ++ toString r.tests_run ++ ",\n" ++
       "  \"passed\": " ++ toString r.tests_passed ++ ",\n" ++
       "  \"failed\": " ++ toString r.tests_failed ++ ",\n" ++
       "  \"success_rate\": \"" ++ rate ++ "\",\n" ++
       "  \"failures\": " ++ failuresJson r.failures ++ "\n\x7d")

/-- The plain-text report written to `/workspace/test_report.txt` by
`generate_test_report` (test_all.py lines 311–326). -/
def txt_report (r : TestResults) (test_date : String) : Option String :=
  match fmtPct1 r.tests_passed r.tests_run with
  | none => none
  | some rate => some
      ("QGIS DOCKER ENVIRONMENT TEST REPORT\n" ++
       String.mk (List.replicate 50 '=') ++ "\n" ++
       "Date: " ++ test_date ++ "\n" ++
       "Tests Run: " ++ toString r.tests_run ++ "\n" ++
       "Passed: " ++ toString r.tests_passed ++ "\n" ++
       "Failed: " ++ toString r.tests_failed ++ "\n" ++
       "Success Rate: " ++ rate ++ "\n" ++
       (if r.failures.isEmpty then "\n✅ All tests passed!\n"
        else "\nFailed Tests:\n" ++
          String.join (r.failures.map fun f => "  - " ++ f.test ++ ": " ++ f.message ++ "\n")))

/-- Claim C9: two harness runs with identical check-result data — the same
counts and the same failures list — and identical timestamp text produce
byte-for-byte identical JSON and plain-text report files. -/
theorem report_reproducible (r₁ r₂ : TestResults) (ts₁ ts₂ : String)
    (h1 : r₁.tests_run = r₂.tests_run) (h2 : r₁.tests_passed = r₂.tests_passed)
    (h3 : r₁.tests_failed = r₂.tests_failed) (h4 : r₁.failures = r₂.failures)
    (h5 : ts₁ = ts₂) :
    json_report r₁ ts₁ = json_report r₂ ts₂ ∧ txt_report r₁ ts₁ = txt_report r₂ ts₂ := by
  have hr : r₁ = r₂ := by
    cases r₁
    cases r₂
    simp_all
  subst hr
  subst h5
  exact ⟨rfl, rfl⟩

/-- Claim C9 (witness). -/
theorem report_reproducible_witness :
    json_report ⟨2, 1, 1, [⟨"Add Features", "boom"⟩]⟩ "2026-10-12T00:00:00"
      = json_report ⟨2, 1, 1, [⟨"Add Features", "boom"⟩]⟩ "2026-10-12T00:00:00" ∧
    txt_report ⟨2, 1, 1, [⟨"Add Features", "boom"⟩]⟩ "2026-10-12T00:00:00"
      = txt_report ⟨2, 1, 1, [⟨"Add Features", "boom"⟩]⟩ "2026-10-12T00:00:00" :=
  report_reproducible ⟨2, 1, 1, [⟨"Add Features", "boom"⟩]⟩ ⟨2, 1, 1, [⟨"Add Features", "boom"⟩]⟩
    "2026-10-12T00:00:00" "2026-10-12T00:00:00" rfl rfl rfl rfl rfl

end QD
